import Mathlib

/-!
Verification of the talk-with-site pipeline

Shallow embedding of the search-then-verify-then-chat pipeline:

* `scraperService` (src/unnamed/part_001): `scrapeWebsite`, `checkScrapability`
* the topic-search orchestrator `handleTopicSearch` (src/unnamed/part_003,
  first `UrlInput` variant): deduplication and parallel verification
* the two divergent `aiService` variants: src/unnamed/part_000 and
  src/services/aiService.ts (`searchWebsites`, `getChatResponse`)
* the transcript handling of src/components/ChatInterface.tsx

External effects (network fetch, DOM parsing, the hosted model, JSON.parse)
are modelled as oracle parameters; everything the repository itself computes
(whitespace cleanup, URL normalization, deduplication, filtering, history
mapping) is embedded as executable Lean functions.
-/

/-! Section: Data model (src/types.ts) -/

/-- Roles of `ChatMessage.role`: `'user' | 'model' | 'system'` (src/types.ts). -/
inductive Role where
  | user
  | model
  | system
deriving DecidableEq, Repr

/-- Structure `ChatMessage` (src/types.ts). -/
structure ChatMessage where
  id : String
  role : Role
  content : String
  timestamp : Nat
deriving DecidableEq, Repr

/-- Structure `WebsiteData` (src/types.ts). -/
structure WebsiteData where
  url : String
  title : String
  content : String
  timestamp : Nat
deriving DecidableEq, Repr

/-- Structure `SearchResultItem` (src/types.ts). -/
structure SearchResultItem where
  title : String
  url : String
  description : String
deriving DecidableEq, Repr

/-- Structure `ScrapeResult` (src/types.ts): `{success: boolean; data?: WebsiteData; error?: string}`.
The optional fields are modelled as `Option`. -/
structure ScrapeResult where
  success : Bool
  data : Option WebsiteData
  error : Option String
deriving DecidableEq, Repr

/-! Section: Whitespace cleanup (src/unnamed/part_001, `scrapeWebsite`)

The scraper cleans the extracted text with
`content.replace(/\s+/g, ' ').replace(/\n\s*\n/g, '\n').trim()`.
We embed the three regex/trim steps over `List Char`. -/

/-- The whitespace class of the JavaScript `\s` regex (the characters that
occur in practice: space, tab, newline, carriage return, vertical tab,
form feed, no-break space). -/
def isJsWs (c : Char) : Bool :=
  c = ' ' || c = '\t' || c = '\n' || c = '\r' || c = '\x0b' || c = '\x0c' || c = ' '

/-- One-pass form of `replace(/\s+/g, ' ')`: `inRun` records whether the
previous character belonged to a whitespace run, which the regex replaces as
a whole by one space. -/
def collapseWsAux (inRun : Bool) : List Char → List Char
  | [] => []
  | c :: rest =>
    if isJsWs c then
      if inRun then collapseWsAux true rest
      else ' ' :: collapseWsAux true rest
    else c :: collapseWsAux false rest

/-- Step `replace(/\s+/g, ' ')`: every maximal run of whitespace becomes a single
space. -/
def collapseWs (l : List Char) : List Char :=
  collapseWsAux false l

/-- One-pass form of `replace(/\n\s*\n/g, '\n')`. The global, greedy,
backtracking regex collapses everything from the first to the last newline of
each maximal whitespace run into a single newline, and copies all other
characters. `afterNl` records that a newline was already emitted for the
current run and `buf` holds the non-newline whitespace seen since then, which
is discarded when another newline arrives (it is inside the match) and
flushed verbatim otherwise. -/
def removeELAux (afterNl : Bool) (buf : List Char) : List Char → List Char
  | [] => if afterNl then buf else []
  | c :: rest =>
    if afterNl then
      if c = '\n' then removeELAux true [] rest
      else if isJsWs c then removeELAux true (buf ++ [c]) rest
      else buf ++ c :: removeELAux false [] rest
    else
      if c = '\n' then '\n' :: removeELAux true [] rest
      else c :: removeELAux false [] rest

/-- Step `replace(/\n\s*\n/g, '\n')`. -/
def removeEmptyLines (l : List Char) : List Char :=
  removeELAux false [] l

/-- JavaScript `String.prototype.trim`: strip whitespace from both ends. -/
def jsTrimChars (l : List Char) : List Char :=
  ((l.dropWhile isJsWs).reverse.dropWhile isJsWs).reverse

/-- JavaScript `s.trim()` on strings. -/
def jsTrim (s : String) : String :=
  ⟨jsTrimChars s.data⟩

/-- The whole cleanup chain of `scrapeWebsite`:
`replace(/\s+/g, ' ').replace(/\n\s*\n/g, '\n').trim()`. -/
def cleanWs (s : String) : String :=
  ⟨jsTrimChars (removeEmptyLines (collapseWs s.data))⟩

/-! Section: Content Extractor (src/unnamed/part_001) -/

/-- Constant `PROXY_URL` (src/unnamed/part_001). -/
def PROXY_URL : String := "https://api.allorigins.win/get?url="

/-- JavaScript `s.startsWith(pre)`, as a prefix test on the characters. -/
def jsStartsWith (s pre : String) : Bool :=
  pre.data.isPrefixOf s.data

/-- JavaScript `s.toLowerCase()` (ASCII range), mapped over the characters. -/
def jsToLower (s : String) : String :=
  ⟨s.data.map Char.toLower⟩

/-- Statement `let targetUrl = url; if (!targetUrl.startsWith('http'))
targetUrl = 'https://' + targetUrl;` (src/unnamed/part_001, lines 9-13). -/
def normalizeTargetUrl (url : String) : String :=
  if jsStartsWith url "http" then url else "https://" ++ url

/-- Outcome of `await response.json()` on the proxy response: either the
promise rejects with a message, or it yields a payload whose `contents`
field is absent/falsy (`none`) or a present HTML string. -/
inductive JsonResult where
  | jsonError (msg : String)
  | payload (contents : Option String)
deriving DecidableEq, Repr

/-- Outcome of `await fetch(...)`: a rejected promise with a message, or a
response with its `ok` flag, `statusText`, and body. -/
inductive FetchResult where
  | netError (msg : String)
  | response (ok : Bool) (statusText : String) (body : JsonResult)
deriving DecidableEq, Repr

/-- What `DOMParser.parseFromString` plus the node-removal pass yields:
`doc.title` (`""` when absent) and `doc.body.textContent` after removing
script/style/iframe/noscript/nav/footer/header/svg nodes (`""` when null). -/
structure Doc where
  title : String
  bodyText : String
deriving DecidableEq, Repr

/-- Oracle for the external effects of `scrapeWebsite`: the network fetch,
`encodeURIComponent`, the DOM parse/strip, and `Date.now()`. -/
structure ScrapeEnv where
  fetch : String → FetchResult
  encode : String → String
  parseDoc : String → Doc
  now : Nat

/-- The fallback of the catch block:
`error.message || 'Failed to scrape website. ...'`. -/
def scrapeFallbackError : String :=
  "Failed to scrape website. Please try a different URL or paste content manually."

/-- The catch block of `scrapeWebsite`: `{ success: false, error:
error.message || 'Failed to scrape website. ...' }`. -/
def scrapeFailure (msg : String) : ScrapeResult :=
  { success := false, data := none,
    error := some (if msg = "" then scrapeFallbackError else msg) }

/-- The insufficient-content error thrown when the cleaned text is shorter
than 50 characters (src/unnamed/part_001, line 45). -/
def insufficientContentError : String :=
  "Could not extract meaningful text content. The site might be SPA-only or blocking scrapers."

/-- Function `scrapeWebsite` (src/unnamed/part_001, lines 7-65): prepend a scheme when
the input does not start with `http`, fetch via the CORS proxy, require an
ok response carrying `contents`, strip non-content nodes, clean whitespace,
and fail when fewer than 50 characters remain; every thrown error is caught
and returned as a failing `ScrapeResult`. -/
def scrapeWebsite (env : ScrapeEnv) (url : String) : ScrapeResult :=
  let targetUrl := normalizeTargetUrl url
  match env.fetch (PROXY_URL ++ env.encode targetUrl) with
  | FetchResult.netError msg => scrapeFailure msg
  | FetchResult.response ok statusText body =>
    if !ok then scrapeFailure ("Failed to fetch: " ++ statusText)
    else
      match body with
      | JsonResult.jsonError msg => scrapeFailure msg
      | JsonResult.payload none => scrapeFailure "No content received from proxy"
      | JsonResult.payload (some html) =>
        let doc := env.parseDoc html
        let title := if doc.title = "" then targetUrl else doc.title
        let content := cleanWs doc.bodyText
        if content.length < 50 then scrapeFailure insufficientContentError
        else
          { success := true,
            data := some { url := targetUrl, title := title, content := content,
                           timestamp := env.now },
            error := none }

/-- Function `checkScrapability` (src/unnamed/part_001, lines 67-70). -/
def checkScrapability (env : ScrapeEnv) (url : String) : Bool :=
  (scrapeWebsite env url).success

/-! Section: Search Orchestrator (src/unnamed/part_003, first `UrlInput` variant,
`handleTopicSearch`) -/

/-- URL normalization for deduplication:
`item.url.trim().toLowerCase().replace(/\/$/, '')`
(src/unnamed/part_003, line 60). -/
def normalizeUrl (u : String) : String :=
  let lowered := jsToLower (jsTrim u)
  if lowered.data.getLast? = some '/' then ⟨lowered.data.dropLast⟩ else lowered

/-- The deduplication loop (src/unnamed/part_003, lines 58-65): walk the raw
candidates keeping a set of already-seen normalized URLs, pushing a candidate
only when its normalized URL is new. -/
def dedupeAux : List SearchResultItem → List String → List SearchResultItem
  | [], _ => []
  | item :: rest, seen =>
    let normalized := normalizeUrl item.url
    if normalized ∈ seen then dedupeAux rest seen
    else item :: dedupeAux rest (normalized :: seen)

/-- List `uniqueResults` as computed by `handleTopicSearch` from `rawResults`. -/
def dedupe (rawResults : List SearchResultItem) : List SearchResultItem :=
  dedupeAux rawResults []

/-- The verification step (src/unnamed/part_003, lines 67-76): map each unique
candidate to itself when `checkScrapability` succeeds and `null` otherwise
(`Promise.all` keeps the order of the mapped list), then filter out the nulls. -/
def verifyCandidates (check : String → Bool) (uniqueResults : List SearchResultItem) :
    List SearchResultItem :=
  (uniqueResults.map (fun item => if check item.url then some item else none)).filterMap id

/-- The message set when the Inference Client returns zero candidates
(src/unnamed/part_003, line 47). -/
def noCandidatesMsg : String :=
  "No relevant websites found. Try a different topic."

/-- The message set when every unique candidate fails verification
(src/unnamed/part_003, line 78). -/
def inaccessibleMsg : String :=
  "Found websites matching your topic, but was unable to automatically access their content (they may be protected or require login). Please try a more general topic."

/-- Observable outcome of `handleTopicSearch` on a successful search call:
either an error message shown to the user or the verified result list. -/
inductive SearchOutcome where
  | errorShown (msg : String)
  | results (items : List SearchResultItem)
deriving DecidableEq, Repr

/-- Function `handleTopicSearch` (src/unnamed/part_003, lines 43-81) after
`aiService.searchWebsites` resolved with `rawResults`: empty candidates
report `noCandidatesMsg`; otherwise deduplicate, verify each unique candidate
with `checkScrapability`, and report `inaccessibleMsg` exactly when nothing
survives. -/
def handleTopicSearch (check : String → Bool) (rawResults : List SearchResultItem) :
    SearchOutcome :=
  if rawResults.length = 0 then SearchOutcome.errorShown noCandidatesMsg
  else
    let uniqueResults := dedupe rawResults
    let verifiedResults := verifyCandidates check uniqueResults
    if verifiedResults.length = 0 then SearchOutcome.errorShown inaccessibleMsg
    else SearchOutcome.results verifiedResults

/-! Section: Inference Client - search (two divergent variants)

The model call and `JSON.parse` are external; they are modelled as the
resolved value of `response.text` (`Except` for a rejected call, `Option` for
a missing/empty text) and a parse oracle classifying a string into the JSON
shapes the code distinguishes. -/

/-- Classification of a successfully parsed model response: a bare JSON
array of items, an object whose `websites` field is an array of items, or
any other JSON value. `JSON.parse` throwing is `none` at the oracle. -/
inductive ParsedJson where
  | arr (items : List SearchResultItem)
  | websitesObj (items : List SearchResultItem)
  | other
deriving DecidableEq, Repr

/-- The wrapped error of the part_000 variant (src/unnamed/part_000,
line 50). -/
def searchFailedMsg_v0 : String :=
  "Failed to search for websites. Please try again."

/-- The wrapped error of the aiService.ts variant (src/services/aiService.ts,
line 50). -/
def searchFailedMsg_ts : String :=
  "Failed to find sources. The AI may be unavailable or the topic too restrictive."

/-- Function `searchWebsites` of src/unnamed/part_000 (lines 11-52) after the model
call resolved (`Except.ok` with `response.text`, `none` for a falsy text) or
rejected (`Except.error`): a falsy text yields `[]`; `JSON.parse` failure is
caught by the inner handler and yields `[]`; a bare array or a `websites`
wrapper yields its items; any other JSON yields `[]`; a rejected call is
wrapped and re-thrown as `searchFailedMsg_v0`. -/
def searchWebsites_v0 (apiResult : Except String (Option String))
    (parse : String → Option ParsedJson) : Except String (List SearchResultItem) :=
  match apiResult with
  | Except.error _ => Except.error searchFailedMsg_v0
  | Except.ok none => Except.ok []
  | Except.ok (some text) =>
    match parse text with
    | none => Except.ok []
    | some (ParsedJson.arr items) => Except.ok items
    | some (ParsedJson.websitesObj items) => Except.ok items
    | some ParsedJson.other => Except.ok []

/-- Function `searchWebsites` of src/services/aiService.ts (lines 15-52): everything,
including `response.text.trim()` (a TypeError when the text is absent) and
`JSON.parse`, sits in one try block whose catch re-throws
`searchFailedMsg_ts`; a parsed value without a `websites` array yields `[]`
via `parsed.websites || []`. -/
def searchWebsites_ts (apiResult : Except String (Option String))
    (parse : String → Option ParsedJson) : Except String (List SearchResultItem) :=
  match apiResult with
  | Except.error _ => Except.error searchFailedMsg_ts
  | Except.ok none => Except.error searchFailedMsg_ts
  | Except.ok (some text) =>
    match parse (jsTrim text) with
    | none => Except.error searchFailedMsg_ts
    | some (ParsedJson.websitesObj items) => Except.ok items
    | some (ParsedJson.arr _) => Except.ok []
    | some ParsedJson.other => Except.ok []

/-! Section: Inference Client - chat (two divergent variants) -/

/-- The fixed fallback of the part_000 variant (`result.text ||
"I couldn't generate a response."`, src/unnamed/part_000, line 102). -/
def chatFallback : String := "I couldn't generate a response."

/-- The error wrapped by the catch block of the part_000 variant
(src/unnamed/part_000, line 106). -/
def chatErrorMsg_v0 : String := "An error occurred while contacting the Gemini API."

/-- The error thrown on an empty response by the aiService.ts variant
(src/services/aiService.ts, line 90). -/
def emptyResponseMsg_ts : String := "Received an empty response from the Gemini API."

/-- Response handling of `getChatResponse` in src/unnamed/part_000 (lines
92-107): `result.text || chatFallback` on success (an absent or empty text
becomes the fallback), and a rejected call is wrapped as `chatErrorMsg_v0`. -/
def chatResponse_v0 (apiResult : Except String (Option String)) : Except String String :=
  match apiResult with
  | Except.error _ => Except.error chatErrorMsg_v0
  | Except.ok none => Except.ok chatFallback
  | Except.ok (some t) => Except.ok (if t = "" then chatFallback else t)

/-- Response handling of `getChatResponse` in src/services/aiService.ts
(lines 77-99): a falsy `response.text` raises `emptyResponseMsg_ts`, and the
catch block re-throws the original error to the caller. -/
def chatResponse_ts (apiResult : Except String (Option String)) : Except String String :=
  match apiResult with
  | Except.error e => Except.error e
  | Except.ok none => Except.error emptyResponseMsg_ts
  | Except.ok (some t) => if t = "" then Except.error emptyResponseMsg_ts else Except.ok t

/-! Section: History construction -/

/-- A role-tagged turn as sent to the hosted model:
`{ role, parts: [{ text }] }` with a single text part. -/
structure GeminiTurn where
  role : String
  text : String
deriving DecidableEq, Repr

/-- The role-string mapping of src/unnamed/part_000, line 77:
`msg.role === 'model' ? 'model' : 'user'` (`system` collapses to `user`). -/
def toTurn_v0 (m : ChatMessage) : GeminiTurn :=
  { role := if m.role = Role.model then "model" else "user", text := m.content }

/-- History construction of `getChatResponse` in src/unnamed/part_000 (lines
72-90): drop the latest message (it is sent separately), map to role-tagged
turns, filter to user/model roles, and shift off a leading model turn. -/
def buildHistory_v0 (messages : List ChatMessage) : List GeminiTurn :=
  let historyMessages := messages.dropLast
  let history := (historyMessages.map toTurn_v0).filter
    (fun t => t.role = "user" || t.role = "model")
  match history with
  | [] => []
  | t :: rest => if t.role = "model" then rest else t :: rest

/-- The role strings of src/types.ts, kept as-is by the aiService.ts map. -/
def roleStr : Role → String
  | Role.user => "user"
  | Role.model => "model"
  | Role.system => "system"

/-- The turn built by src/services/aiService.ts, line 71-74:
`{ role: m.role, parts: [{ text: m.content }] }`. -/
def toTurn_ts (m : ChatMessage) : GeminiTurn :=
  { role := roleStr m.role, text := m.content }

/-- The `contents` construction of `getChatResponse` in src/services/aiService.ts
(lines 68-76): filter the transcript to user/model messages, then map each to
a role-tagged turn with its content unchanged. -/
def buildContents_ts (messages : List ChatMessage) : List GeminiTurn :=
  (messages.filter (fun m => m.role = Role.user || m.role = Role.model)).map toTurn_ts

/-! Section: Conversation View transcript (src/components/ChatInterface.tsx) -/

/-- Function `handleSendMessage` (src/components/ChatInterface.tsx, lines 40-62):
`newHistory = [...messages, userMsg]`, the transcript from which the request
is built. -/
def sendTranscript (messages : List ChatMessage) (userMsg : ChatMessage) :
    List ChatMessage :=
  messages ++ [userMsg]

/-- The transcript after the response (or error message) is appended
(src/components/ChatInterface.tsx, lines 64-86):
`setMessages(prev => [...prev, botMsg])`. -/
def afterResponse (messages : List ChatMessage) (userMsg botMsg : ChatMessage) :
    List ChatMessage :=
  sendTranscript messages userMsg ++ [botMsg]

/-- Transcripts as the Conversation View builds them after the initial model
greeting: alternating turns starting with a user message
(src/components/ChatInterface.tsx appends a user message and then exactly one
model message per round). -/
inductive AltFromUser : List ChatMessage → Prop
  | nil : AltFromUser []
  | one (m : ChatMessage) : m.role = Role.user → AltFromUser [m]
  | pair (u v : ChatMessage) (rest : List ChatMessage) :
      u.role = Role.user → v.role = Role.model → AltFromUser rest →
      AltFromUser (u :: v :: rest)

/-! Section: Spec-modelled definition and concrete instances used by the claims -/

/-- Modelled from the spec: "a string assumed to be a URL (scheme prepended
if missing)". A string has a URL scheme when a nonempty scheme name is
followed by the `://` separator; the implementation only tests
`startsWith('http')`, so the two notions are compared in claim C9. -/
def hasSchemeChars : List Char → Bool
  | ':' :: '/' :: '/' :: _ => true
  | _ :: rest => hasSchemeChars rest
  | [] => false

/-- Modelled from the spec: a URL "has a scheme" when `://` occurs and the
scheme name before its first occurrence is nonempty. -/
def hasScheme (s : String) : Bool :=
  match s.data with
  | [] => false
  | c :: rest => if c = ':' then false else hasSchemeChars (c :: rest)

/-- The cleaned text `scrapeWebsite` extracts from a fetched page. -/
def scrapedContent (env : ScrapeEnv) (html : String) : String :=
  cleanWs (env.parseDoc html).bodyText

/-- First example candidate of the spec's deduplication test. -/
def exItemA : SearchResultItem :=
  { title := "A", url := "http://a.com/", description := "a" }

/-- Second example candidate of the spec's deduplication test. -/
def exItemB : SearchResultItem :=
  { title := "B", url := "HTTP://A.com", description := "b" }

/-- Third example candidate of the spec's deduplication test. -/
def exItemC : SearchResultItem :=
  { title := "C", url := "http://a.com", description := "c" }

/-- A 60-character page text with no whitespace, used as a concrete witness
body. -/
def exBodyText : String :=
  "abcdefghijklmnopqrstuvwxyzabcdefghijklmnopqrstuvwxyzabcdefgh"

/-- A concrete environment whose proxy fetch succeeds and whose page text is
60 characters long. -/
def scrapeEnvOk : ScrapeEnv :=
  { fetch := fun _ => FetchResult.response true "" (JsonResult.payload (some "<html>")),
    encode := fun s => s,
    parseDoc := fun _ => { title := "T", bodyText := exBodyText },
    now := 0 }

/-- A concrete environment whose fetch rejects with an empty message. -/
def scrapeEnvDown : ScrapeEnv :=
  { fetch := fun _ => FetchResult.netError "",
    encode := fun s => s,
    parseDoc := fun _ => { title := "", bodyText := "" },
    now := 0 }

/-- A concrete example chat message: the initial model greeting of the
Conversation View. -/
def exGreeting : ChatMessage :=
  { id := "init-1", role := Role.model, content := "I have read the page.", timestamp := 0 }

/-- A concrete example chat message: a user question. -/
def exUserMsg : ChatMessage :=
  { id := "2", role := Role.user, content := "What is this site about?", timestamp := 1 }

/-- A concrete example chat message: a model reply. -/
def exBotMsg : ChatMessage :=
  { id := "3", role := Role.model, content := "It is about examples.", timestamp := 2 }

/-! Section: Lemmas about the orchestrator -/

/-- The order-preserving map-then-filter verification equals a plain filter. -/
theorem verifyCandidates_eq_filter (check : String → Bool) (l : List SearchResultItem) :
    verifyCandidates check l = l.filter (fun i => check i.url) := by
  induction l with
  | nil => rfl
  | cons a t ih =>
    simp only [verifyCandidates, List.map_cons, List.filterMap_cons, List.filter_cons] at *
    cases h : check a.url <;> simp [h, ih]

/-- Deduplication only drops elements: the result is a sublist of the input. -/
theorem dedupeAux_sublist (l : List SearchResultItem) (seen : List String) :
    (dedupeAux l seen).Sublist l := by
  induction l generalizing seen with
  | nil => simp [dedupeAux]
  | cons a t ih =>
    simp only [dedupeAux]
    by_cases h : normalizeUrl a.url ∈ seen
    · simp only [if_pos h]
      exact (ih seen).cons a
    · simp only [if_neg h]
      exact (ih _).cons₂ a

/-- No element surviving deduplication has a normalized URL that was already
in the seen set. -/
theorem dedupeAux_not_seen (l : List SearchResultItem) (seen : List String) :
    ∀ x ∈ dedupeAux l seen, normalizeUrl x.url ∉ seen := by
  induction l generalizing seen with
  | nil => simp [dedupeAux]
  | cons a t ih =>
    intro x hx
    simp only [dedupeAux] at hx
    by_cases h : normalizeUrl a.url ∈ seen
    · rw [if_pos h] at hx
      exact ih seen x hx
    · rw [if_neg h] at hx
      rcases List.mem_cons.mp hx with rfl | hx2
      · exact h
      · have h2 := ih (normalizeUrl a.url :: seen) x hx2
        exact fun hmem => h2 (List.mem_cons_of_mem _ hmem)

/-- The normalized URLs of the deduplicated list are pairwise distinct. -/
theorem dedupeAux_nodup (l : List SearchResultItem) (seen : List String) :
    ((dedupeAux l seen).map (fun i => normalizeUrl i.url)).Nodup := by
  induction l generalizing seen with
  | nil => simp [dedupeAux]
  | cons a t ih =>
    simp only [dedupeAux]
    by_cases h : normalizeUrl a.url ∈ seen
    · rw [if_pos h]
      exact ih seen
    · rw [if_neg h]
      simp only [List.map_cons, List.nodup_cons]
      refine ⟨?_, ih (normalizeUrl a.url :: seen)⟩
      intro hmem
      rcases List.mem_map.mp hmem with ⟨x, hx, hxeq⟩
      exact dedupeAux_not_seen t (normalizeUrl a.url :: seen) x hx
        (by rw [hxeq]; exact List.mem_cons_self _ _)

/-- Every input candidate is represented in the deduplicated list: its
normalized URL was already seen, or some retained candidate shares it. -/
theorem dedupeAux_covers (l : List SearchResultItem) (seen : List String) :
    ∀ i ∈ l, normalizeUrl i.url ∈ seen ∨
      ∃ j ∈ dedupeAux l seen, normalizeUrl j.url = normalizeUrl i.url := by
  induction l generalizing seen with
  | nil => simp
  | cons a t ih =>
    intro i hi
    simp only [dedupeAux]
    by_cases h : normalizeUrl a.url ∈ seen
    · rw [if_pos h]
      rcases List.mem_cons.mp hi with rfl | hit
      · exact Or.inl h
      · exact ih seen i hit
    · rw [if_neg h]
      rcases List.mem_cons.mp hi with heq | hit
      · exact Or.inr ⟨a, List.mem_cons_self _ _, by rw [heq]⟩
      · rcases ih (normalizeUrl a.url :: seen) i hit with hseen | ⟨j, hj, hjeq⟩
        · rcases List.mem_cons.mp hseen with heq | hseen2
          · exact Or.inr ⟨a, List.mem_cons_self _ _, heq.symm⟩
          · exact Or.inl hseen2
        · exact Or.inr ⟨j, List.mem_cons_of_mem _ hj, hjeq⟩

/-! Section: Claim C1 -/

/-- C1: for every deduplicated candidate list, the verification step returns
exactly the sub-list of candidates whose extraction (`checkScrapability`)
succeeds, in the relative order of the deduplicated input: it equals the
filter of the deduplicated list by `checkScrapability`, and is a sublist of
it (nothing is added, reordered, or modified). -/
theorem spec_C1 (env : ScrapeEnv) (rawResults : List SearchResultItem) :
    verifyCandidates (checkScrapability env) (dedupe rawResults) =
      (dedupe rawResults).filter (fun i => checkScrapability env i.url) ∧
    (verifyCandidates (checkScrapability env) (dedupe rawResults)).Sublist
      (dedupe rawResults) := by
  refine ⟨verifyCandidates_eq_filter _ _, ?_⟩
  rw [verifyCandidates_eq_filter]
  exact List.filter_sublist _

/-! Section: Claim C3 -/

/-- C3: deduplication is by normalized URL (trimmed, lowercased, trailing
slash stripped) using a set: the retained candidates have pairwise distinct
normalized URLs, every raw candidate is represented by a retained one with
the same normalized URL, and only raw candidates are retained (in order); in
particular the three candidates `http://a.com/`, `HTTP://A.com`,
`http://a.com` collapse to exactly one. -/
theorem spec_C3 :
    (∀ rawResults : List SearchResultItem,
      ((dedupe rawResults).map (fun i => normalizeUrl i.url)).Nodup ∧
      (∀ i ∈ rawResults, ∃ j ∈ dedupe rawResults,
        normalizeUrl j.url = normalizeUrl i.url) ∧
      (dedupe rawResults).Sublist rawResults) ∧
    dedupe [exItemA, exItemB, exItemC] = [exItemA] := by
  constructor
  · intro rawResults
    refine ⟨dedupeAux_nodup rawResults [], ?_, dedupeAux_sublist rawResults []⟩
    intro i hi
    rcases dedupeAux_covers rawResults [] i hi with hseen | h
    · exact absurd hseen (List.not_mem_nil _)
    · exact h
  · decide

/-- Witness for C3: the general part evaluated on the spec's own three-URL
example. -/
theorem spec_C3_witness :
    ((dedupe [exItemA, exItemB, exItemC]).map (fun i => normalizeUrl i.url)).Nodup ∧
    (∃ j ∈ dedupe [exItemA, exItemB, exItemC],
      normalizeUrl j.url = normalizeUrl exItemB.url) :=
  ⟨(spec_C3.1 [exItemA, exItemB, exItemC]).1,
   (spec_C3.1 [exItemA, exItemB, exItemC]).2.1 exItemB (by decide)⟩

/-! Section: Claim C4 -/

/-- C4: the zero-candidate message and the all-filtered-out message are
distinct; each condition produces its own message, a non-empty verified set
is reported as results, and no input reports both error conditions. -/
theorem spec_C4 :
    noCandidatesMsg ≠ inaccessibleMsg ∧
    ∀ (check : String → Bool) (rawResults : List SearchResultItem),
      (rawResults = [] →
        handleTopicSearch check rawResults = SearchOutcome.errorShown noCandidatesMsg) ∧
      (rawResults ≠ [] → verifyCandidates check (dedupe rawResults) = [] →
        handleTopicSearch check rawResults = SearchOutcome.errorShown inaccessibleMsg) ∧
      (rawResults ≠ [] → verifyCandidates check (dedupe rawResults) ≠ [] →
        handleTopicSearch check rawResults =
          SearchOutcome.results (verifyCandidates check (dedupe rawResults))) ∧
      ¬(handleTopicSearch check rawResults = SearchOutcome.errorShown noCandidatesMsg ∧
        handleTopicSearch check rawResults = SearchOutcome.errorShown inaccessibleMsg) := by
  refine ⟨by decide, ?_⟩
  intro check rawResults
  refine ⟨?_, ?_, ?_, ?_⟩
  · intro h
    simp [handleTopicSearch, h]
  · intro hne hempty
    have hlen : ¬rawResults.length = 0 := fun h => hne (List.length_eq_zero.mp h)
    simp [handleTopicSearch, hlen, hempty]
  · intro hne hnonempty
    have hlen : ¬rawResults.length = 0 := fun h => hne (List.length_eq_zero.mp h)
    have hvlen : ¬(verifyCandidates check (dedupe rawResults)).length = 0 :=
      fun h => hnonempty (List.length_eq_zero.mp h)
    simp [handleTopicSearch, hlen, hvlen]
  · rintro ⟨h1, h2⟩
    rw [h1] at h2
    have : noCandidatesMsg = inaccessibleMsg := by
      injection h2
    exact absurd this (by decide)

/-- Witness for C4: on an empty candidate list the orchestrator reports the
zero-candidate message, and never both messages at once. -/
theorem spec_C4_witness :
    handleTopicSearch (fun _ => true) [] = SearchOutcome.errorShown noCandidatesMsg ∧
    ¬(handleTopicSearch (fun _ => true) [] = SearchOutcome.errorShown noCandidatesMsg ∧
      handleTopicSearch (fun _ => true) [] = SearchOutcome.errorShown inaccessibleMsg) :=
  ⟨(spec_C4.2 (fun _ => true) []).1 rfl, (spec_C4.2 (fun _ => true) []).2.2.2⟩

/-! Section: Claim C2 -/

/-- C2: when the proxy fetch resolves with an ok response carrying page
contents, extraction succeeds exactly when the whitespace-normalized text has
length at least 50: on success it returns the full `WebsiteData` (whose
`content` is non-empty), and below 50 it fails with the specific
insufficient-content error. -/
theorem spec_C2 (env : ScrapeEnv) (url st html : String)
    (hfetch : env.fetch (PROXY_URL ++ env.encode (normalizeTargetUrl url)) =
      FetchResult.response true st (JsonResult.payload (some html))) :
    ((scrapeWebsite env url).success = true ↔ 50 ≤ (scrapedContent env html).length) ∧
    (50 ≤ (scrapedContent env html).length →
      scrapeWebsite env url =
        { success := true,
          data := some { url := normalizeTargetUrl url,
                         title := if (env.parseDoc html).title = "" then normalizeTargetUrl url
                                  else (env.parseDoc html).title,
                         content := scrapedContent env html,
                         timestamp := env.now },
          error := none } ∧ scrapedContent env html ≠ "") ∧
    ((scrapedContent env html).length < 50 →
      (scrapeWebsite env url).success = false ∧
      (scrapeWebsite env url).error = some insufficientContentError) := by
  have hrw : scrapeWebsite env url =
      (if (scrapedContent env html).length < 50 then scrapeFailure insufficientContentError
       else { success := true,
              data := some { url := normalizeTargetUrl url,
                             title := if (env.parseDoc html).title = "" then normalizeTargetUrl url
                                      else (env.parseDoc html).title,
                             content := scrapedContent env html,
                             timestamp := env.now },
              error := none }) := by
    simp only [scrapeWebsite, hfetch, scrapedContent]
    rfl
  by_cases hlen : (scrapedContent env html).length < 50
  · rw [hrw, if_pos hlen]
    refine ⟨?_, fun h => absurd h (by omega), fun _ => ⟨rfl, ?_⟩⟩
    · simp only [scrapeFailure]
      constructor
      · intro h
        exact absurd h (by simp)
      · intro h
        omega
    · simp only [scrapeFailure]
      rw [if_neg (by decide : ¬insufficientContentError = "")]
  · rw [hrw, if_neg hlen]
    push_neg at hlen
    refine ⟨by simp [hlen], fun _ => ⟨rfl, ?_⟩, fun h => absurd h (by omega)⟩
    intro hc
    rw [hc] at hlen
    simp at hlen

/-- Witness for C2: in the concrete environment `scrapeEnvOk` (ok response,
60-character page text) the equivalence and the success branch hold. -/
theorem spec_C2_witness :
    ((scrapeWebsite scrapeEnvOk "example.com").success = true ↔
      50 ≤ (scrapedContent scrapeEnvOk "<html>").length) ∧
    (50 ≤ (scrapedContent scrapeEnvOk "<html>").length →
      scrapeWebsite scrapeEnvOk "example.com" =
        { success := true,
          data := some { url := normalizeTargetUrl "example.com",
                         title := if (scrapeEnvOk.parseDoc "<html>").title = ""
                                  then normalizeTargetUrl "example.com"
                                  else (scrapeEnvOk.parseDoc "<html>").title,
                         content := scrapedContent scrapeEnvOk "<html>",
                         timestamp := scrapeEnvOk.now },
          error := none } ∧ scrapedContent scrapeEnvOk "<html>" ≠ "") ∧
    ((scrapedContent scrapeEnvOk "<html>").length < 50 →
      (scrapeWebsite scrapeEnvOk "example.com").success = false ∧
      (scrapeWebsite scrapeEnvOk "example.com").error = some insufficientContentError) :=
  spec_C2 scrapeEnvOk "example.com" "" "<html>" rfl

/-! Section: Claim C10 -/

/-- Every result of `scrapeWebsite` is either a caught failure or a success
carrying full website data. -/
theorem scrapeWebsite_shape (env : ScrapeEnv) (url : String) :
    (∃ msg, scrapeWebsite env url = scrapeFailure msg) ∨
    (∃ d : WebsiteData, scrapeWebsite env url =
      { success := true, data := some d, error := none }) := by
  cases hf : env.fetch (PROXY_URL ++ env.encode (normalizeTargetUrl url)) with
  | netError msg => exact Or.inl ⟨msg, by simp [scrapeWebsite, hf]⟩
  | response ok st body =>
    cases ok with
    | false => exact Or.inl ⟨"Failed to fetch: " ++ st, by simp [scrapeWebsite, hf]⟩
    | true =>
      cases body with
      | jsonError msg => exact Or.inl ⟨msg, by simp [scrapeWebsite, hf]⟩
      | payload c =>
        cases c with
        | none => exact Or.inl ⟨"No content received from proxy", by simp [scrapeWebsite, hf]⟩
        | some html =>
          by_cases hlen : (cleanWs (env.parseDoc html).bodyText).length < 50
          · exact Or.inl ⟨insufficientContentError, by simp [scrapeWebsite, hf, hlen]⟩
          · refine Or.inr ⟨?_, ?_⟩
            · exact
                { url := normalizeTargetUrl url,
                  title := if (env.parseDoc html).title = "" then normalizeTargetUrl url
                           else (env.parseDoc html).title,
                  content := cleanWs (env.parseDoc html).bodyText,
                  timestamp := env.now }
            · simp [scrapeWebsite, hf, hlen]

/-- A caught failure always carries a non-empty error string. -/
theorem scrapeFailure_error_nonempty (msg : String) :
    ∃ e, (scrapeFailure msg).error = some e ∧ e ≠ "" := by
  by_cases h : msg = ""
  · exact ⟨scrapeFallbackError, by simp [scrapeFailure, h], by decide⟩
  · exact ⟨msg, by simp [scrapeFailure, h], h⟩

/-- C10: `scrapeWebsite` is total at its interface: for every environment and
input string it returns a `ScrapeResult` (it is a total function of the
model); on success the `data` field is present and no error is set, and on
failure the `error` field holds a non-empty string. -/
theorem spec_C10 (env : ScrapeEnv) (url : String) :
    ((scrapeWebsite env url).success = true →
      (scrapeWebsite env url).data.isSome = true ∧ (scrapeWebsite env url).error = none) ∧
    ((scrapeWebsite env url).success = false →
      ∃ e, (scrapeWebsite env url).error = some e ∧ e ≠ "") := by
  rcases scrapeWebsite_shape env url with ⟨msg, hm⟩ | ⟨d, hd⟩
  · rw [hm]
    refine ⟨fun h => absurd h ?_, fun _ => scrapeFailure_error_nonempty msg⟩
    simp [scrapeFailure]
  · rw [hd]
    exact ⟨fun _ => ⟨rfl, rfl⟩, fun h => by simp at h⟩

/-- Witness for C10: in the concrete environment `scrapeEnvDown` (rejected
fetch with an empty message) the failure carries a non-empty error. -/
theorem spec_C10_witness :
    ∃ e, (scrapeWebsite scrapeEnvDown "example.com").error = some e ∧ e ≠ "" :=
  (spec_C10 scrapeEnvDown "example.com").2 rfl

/-! Section: Claim C5 -/

/-- Counterexample to C5 as stated: in the src/services/aiService.ts variant,
a model response text that fails `JSON.parse` (parse oracle `none`) is not
returned as the empty list; the parse failure is caught by the same handler
as an API failure and re-thrown as the generic search-failed error. -/
theorem spec_C5_counterexample :
    searchWebsites_ts (Except.ok (some "not json")) (fun _ => none) =
      Except.error searchFailedMsg_ts ∧
    searchWebsites_ts (Except.ok (some "not json")) (fun _ => none) ≠
      Except.ok ([] : List SearchResultItem) := by
  constructor
  · rfl
  · intro h
    exact Except.noConfusion h

/-- C5 (amended): in the part_000 variant a missing response text, a
`JSON.parse` failure, or an unexpected JSON shape each yield the empty list
(logged, not thrown) and only a rejected API call is wrapped and re-thrown as
the generic search-failed error; in the aiService.ts variant a `JSON.parse`
failure is caught together with API failure and re-thrown as its generic
search-failed error, while successfully parsed JSON without a `websites`
array yields the empty list. -/
theorem spec_C5 :
    (∀ (s : String) (parse : String → Option ParsedJson), parse s = none →
      searchWebsites_v0 (Except.ok (some s)) parse = Except.ok []) ∧
    (∀ parse : String → Option ParsedJson,
      searchWebsites_v0 (Except.ok none) parse = Except.ok []) ∧
    (∀ (s : String) (parse : String → Option ParsedJson), parse s = some ParsedJson.other →
      searchWebsites_v0 (Except.ok (some s)) parse = Except.ok []) ∧
    (∀ (e : String) (parse : String → Option ParsedJson),
      searchWebsites_v0 (Except.error e) parse = Except.error searchFailedMsg_v0) ∧
    (∀ (s : String) (parse : String → Option ParsedJson), parse (jsTrim s) = none →
      searchWebsites_ts (Except.ok (some s)) parse = Except.error searchFailedMsg_ts) ∧
    (∀ (s : String) (parse : String → Option ParsedJson) (items : List SearchResultItem),
      parse (jsTrim s) = some (ParsedJson.arr items) →
      searchWebsites_ts (Except.ok (some s)) parse = Except.ok []) ∧
    (∀ (e : String) (parse : String → Option ParsedJson),
      searchWebsites_ts (Except.error e) parse = Except.error searchFailedMsg_ts) := by
  refine ⟨?_, ?_, ?_, ?_, ?_, ?_, ?_⟩
  · intro s parse h
    simp [searchWebsites_v0, h]
  · intro parse
    rfl
  · intro s parse h
    simp [searchWebsites_v0, h]
  · intro e parse
    rfl
  · intro s parse h
    simp [searchWebsites_ts, h]
  · intro s parse items h
    simp [searchWebsites_ts, h]
  · intro e parse
    rfl

/-- Witness for C5 (amended): concrete parse-failure inputs for both
variants. -/
theorem spec_C5_witness :
    searchWebsites_v0 (Except.ok (some "x")) (fun _ => none) = Except.ok [] ∧
    searchWebsites_ts (Except.ok (some "x")) (fun _ => none) =
      Except.error searchFailedMsg_ts :=
  ⟨spec_C5.1 "x" (fun _ => none) rfl,
   spec_C5.2.2.2.2.1 "x" (fun _ => none) rfl⟩

/-! Section: Claim C6 -/

/-- Counterexample to C6 as stated: in the src/services/aiService.ts variant
an empty model response text does not yield the fixed fallback string; it
raises the empty-response error, which propagates to the caller. -/
theorem spec_C6_counterexample :
    chatResponse_ts (Except.ok (some "")) = Except.error emptyResponseMsg_ts ∧
    chatResponse_ts (Except.ok (some "")) ≠ Except.ok chatFallback := by
  constructor
  · rfl
  · intro h
    exact Except.noConfusion h

/-- C6 (amended): in the part_000 variant an empty or missing response text
yields the fixed fallback string, a non-empty text is returned as-is, and an
API failure is wrapped into an error; in the aiService.ts variant an empty or
missing response text raises the empty-response error and an API failure is
re-thrown unchanged, while a non-empty text is returned as-is. -/
theorem spec_C6 :
    (∀ t : String, t ≠ "" →
      chatResponse_v0 (Except.ok (some t)) = Except.ok t) ∧
    (chatResponse_v0 (Except.ok (some "")) = Except.ok chatFallback) ∧
    (chatResponse_v0 (Except.ok none) = Except.ok chatFallback) ∧
    (∀ e : String, chatResponse_v0 (Except.error e) = Except.error chatErrorMsg_v0) ∧
    (chatResponse_ts (Except.ok (some "")) = Except.error emptyResponseMsg_ts) ∧
    (chatResponse_ts (Except.ok none) = Except.error emptyResponseMsg_ts) ∧
    (∀ t : String, t ≠ "" → chatResponse_ts (Except.ok (some t)) = Except.ok t) ∧
    (∀ e : String, chatResponse_ts (Except.error e) = Except.error e) := by
  refine ⟨?_, rfl, rfl, ?_, rfl, rfl, ?_, ?_⟩
  · intro t ht
    simp [chatResponse_v0, ht]
  · intro e
    rfl
  · intro t ht
    simp [chatResponse_ts, ht]
  · intro e
    rfl

/-- Witness for C6 (amended): a concrete non-empty response is returned
as-is by both variants. -/
theorem spec_C6_witness :
    chatResponse_v0 (Except.ok (some "hello")) = Except.ok "hello" ∧
    chatResponse_ts (Except.ok (some "hello")) = Except.ok "hello" :=
  ⟨spec_C6.1 "hello" (by decide), spec_C6.2.2.2.2.2.2.1 "hello" (by decide)⟩

/-! Section: Claim C7 -/

/-- Every turn built by the part_000 map passes its user-or-model filter. -/
theorem toTurn_v0_roleOk (m : ChatMessage) :
    ((toTurn_v0 m).role = "user" || (toTurn_v0 m).role = "model" : Bool) = true := by
  by_cases h : m.role = Role.model <;> simp [toTurn_v0, h]

/-- The user-or-model filter of part_000 keeps every mapped turn. -/
theorem filter_map_toTurn_v0 (l : List ChatMessage) :
    (l.map toTurn_v0).filter (fun t => t.role = "user" || t.role = "model") =
      l.map toTurn_v0 := by
  apply List.filter_eq_self.mpr
  intro a ha
  rcases List.mem_map.mp ha with ⟨m, _, rfl⟩
  exact toTurn_v0_roleOk m

/-- With a leading model greeting, `buildHistory_v0` sends exactly the mapped
transcript between the greeting and the latest message: the greeting is
excluded from what goes upstream. -/
theorem buildHistory_v0_drops_greeting (g : ChatMessage) (t : List ChatMessage)
    (hg : g.role = Role.model) (hne : t ≠ []) :
    buildHistory_v0 (g :: t) = (t.dropLast).map toTurn_v0 := by
  obtain ⟨u, t2, rfl⟩ : ∃ u t2, t = u :: t2 := by
    cases t with
    | nil => exact absurd rfl hne
    | cons u t2 => exact ⟨u, t2, rfl⟩
  have hd : (g :: u :: t2).dropLast = g :: (u :: t2).dropLast := rfl
  simp only [buildHistory_v0]
  rw [filter_map_toTurn_v0, hd, List.map_cons]
  simp [toTurn_v0, hg]

/-- In an alternating transcript the first message is a user turn. -/
theorem AltFromUser_head (t : List ChatMessage) (h : AltFromUser t) :
    ∀ m, t.head? = some m → m.role = Role.user := by
  cases h with
  | nil =>
    intro m hm
    simp at hm
  | one m' hm' =>
    intro m hm
    simp only [List.head?_cons, Option.some.injEq] at hm
    rw [← hm]
    exact hm'
  | pair u v rest hu hv hrest =>
    intro m hm
    simp only [List.head?_cons, Option.some.injEq] at hm
    rw [← hm]
    exact hu

/-- The head of `dropLast` is the head of the list. -/
theorem head?_dropLast_eq {α : Type} (l : List α) (m : α)
    (h : l.dropLast.head? = some m) : l.head? = some m := by
  cases l with
  | nil => simp at h
  | cons a l2 =>
    cases l2 with
    | nil => simp at h
    | cons b r =>
      have hd : (a :: b :: r).dropLast = a :: (b :: r).dropLast := rfl
      rw [hd, List.head?_cons] at h
      rw [List.head?_cons]
      exact h

/-- C7: for every transcript the Conversation View can present (a leading
model greeting followed by alternating turns starting with the user), the
history the part_000 `getChatResponse` sends upstream excludes the greeting,
and its first turn, when present, has the user role. -/
theorem spec_C7 (g : ChatMessage) (t : List ChatMessage)
    (hg : g.role = Role.model) (ht : AltFromUser t) (hne : t ≠ []) :
    buildHistory_v0 (g :: t) = (t.dropLast).map toTurn_v0 ∧
    (∀ x, (buildHistory_v0 (g :: t)).head? = some x → x.role = "user") := by
  have h1 := buildHistory_v0_drops_greeting g t hg hne
  refine ⟨h1, ?_⟩
  intro x hx
  rw [h1, List.head?_map] at hx
  rcases Option.map_eq_some'.mp hx with ⟨m, hm, rfl⟩
  have hu : m.role = Role.user := AltFromUser_head t ht m (head?_dropLast_eq t m hm)
  simp [toTurn_v0, hu]

/-- Witness for C7: the greeting plus one user question; the history sent
upstream is empty, so the greeting is excluded. -/
theorem spec_C7_witness :
    buildHistory_v0 (exGreeting :: [exUserMsg]) = ([exUserMsg].dropLast).map toTurn_v0 ∧
    (∀ x, (buildHistory_v0 (exGreeting :: [exUserMsg])).head? = some x →
      x.role = "user") :=
  spec_C7 exGreeting [exUserMsg] rfl (AltFromUser.one exUserMsg rfl) (by simp)

/-! Section: Claim C8 -/

/-- C8: the transcript only grows by appends (each step keeps the previous
transcript as a prefix), and any user/model turn of a transcript appears with
identical role and content in every request the aiService.ts variant builds
from any extension of that transcript. -/
theorem spec_C8 (messages : List ChatMessage) (userMsg botMsg : ChatMessage) :
    messages <+: sendTranscript messages userMsg ∧
    sendTranscript messages userMsg <+: afterResponse messages userMsg botMsg ∧
    (∀ (later : List ChatMessage) (m : ChatMessage),
      messages <+: later → m ∈ messages → m.role ≠ Role.system →
      ({ role := roleStr m.role, text := m.content } : GeminiTurn) ∈
        buildContents_ts later) := by
  refine ⟨List.prefix_append messages [userMsg], List.prefix_append _ [botMsg], ?_⟩
  intro later m hpre hmem hrole
  have hml : m ∈ later := hpre.subset hmem
  have hpass : (m.role = Role.user || m.role = Role.model : Bool) = true := by
    cases hr : m.role with
    | user => simp
    | model => simp
    | system => exact absurd hr hrole
  have hf : m ∈ later.filter (fun x => x.role = Role.user || x.role = Role.model) :=
    List.mem_filter.mpr ⟨hml, hpass⟩
  exact List.mem_map.mpr ⟨m, hf, rfl⟩

/-- Witness for C8: the greeting turn survives, unmutated, into the request
built after a user message is appended. -/
theorem spec_C8_witness :
    [exGreeting] <+: sendTranscript [exGreeting] exUserMsg ∧
    ({ role := roleStr exGreeting.role, text := exGreeting.content } : GeminiTurn) ∈
      buildContents_ts (sendTranscript [exGreeting] exUserMsg) :=
  ⟨(spec_C8 [exGreeting] exUserMsg exBotMsg).1,
   (spec_C8 [exGreeting] exUserMsg exBotMsg).2.2 (sendTranscript [exGreeting] exUserMsg)
     exGreeting (spec_C8 [exGreeting] exUserMsg exBotMsg).1 (by simp) (by decide)⟩

/-! Section: Claim C9 -/

/-- Counterexample to C9 as stated: `ftp://example.com` already has a URL
scheme yet is not fetched unchanged (it becomes `https://ftp://example.com`),
and `httpfoo.com` lacks a scheme yet no scheme is prepended, because the code
tests `startsWith('http')` rather than the presence of a scheme. -/
theorem spec_C9_counterexample :
    hasScheme "ftp://example.com" = true ∧
    normalizeTargetUrl "ftp://example.com" ≠ "ftp://example.com" ∧
    hasScheme "httpfoo.com" = false ∧
    normalizeTargetUrl "httpfoo.com" = "httpfoo.com" := by
  refine ⟨rfl, ?_, rfl, rfl⟩
  decide

/-- C9 (amended): the Content Extractor prepends `https://` exactly when the
input does not start with the four characters `http`, and fetches inputs
starting with `http` unchanged; whether the input has a URL scheme is not
what is tested. -/
theorem spec_C9 (s : String) :
    (jsStartsWith s "http" = true → normalizeTargetUrl s = s) ∧
    (jsStartsWith s "http" = false → normalizeTargetUrl s = "https://" ++ s) := by
  constructor <;> intro h <;> simp [normalizeTargetUrl, h]

/-- Witness for C9 (amended): one input with the `http` prefix kept
unchanged, one input without it getting the scheme prepended. -/
theorem spec_C9_witness :
    normalizeTargetUrl "https://example.com" = "https://example.com" ∧
    normalizeTargetUrl "example.com" = "https://" ++ "example.com" :=
  ⟨(spec_C9 "https://example.com").1 rfl, (spec_C9 "example.com").2 rfl⟩
